import Mathlib

/-
Verification development for the Legal_analyser backend.

The Python sources under backend/ are shallowly embedded: pure logic is
translated into executable Lean definitions, stateful endpoint handlers
into explicit state passing over the in-memory cache, and the external
collaborators (the Gemini/OpenRouter provider, the json module, PyMuPDF,
Tesseract, python-magic, the filesystem) into oracle parameters describing
the outcome of each call at its interface.  Machine floats of the source
are modelled as rationals; wall-clock timing is not modelled.
-/

namespace LegalAnalyser

/-- Python str.strip() with no arguments: drop whitespace from both ends. -/
def pyStrip (l : List Char) : List Char :=
  ((l.dropWhile Char.isWhitespace).reverse.dropWhile Char.isWhitespace).reverse

/-- String form of pyStrip. -/
def pyStripS (s : String) : String :=
  String.mk (pyStrip s.data)

/-- Python character slicing s[:n]. -/
def pyTake (s : String) (n : Nat) : String :=
  String.mk (s.data.take n)

/-- Worker for pyTokens: Python str.split() with no arguments, which splits
on runs of whitespace and drops empty pieces.  The accumulator holds the
current token reversed. -/
def pyTokensAux : List Char → List Char → List (List Char)
  | [], acc => if acc.isEmpty then [] else [acc.reverse]
  | c :: rest, acc =>
    if c.isWhitespace then
      if acc.isEmpty then pyTokensAux rest []
      else acc.reverse :: pyTokensAux rest []
    else pyTokensAux rest (c :: acc)

/-- Python str.split() with no arguments, on a string. -/
def pyTokens (s : String) : List (List Char) :=
  pyTokensAux s.data []

/-- Python truthiness-based default for strings: s or dflt. -/
def pyOrElse (s dflt : String) : String :=
  if s = "" then dflt else s

/-- JSON values as returned by json.loads (an external collaborator,
modelled at its interface).  Numbers are rationals. -/
inductive JVal where
  | null
  | bool (b : Bool)
  | num (q : ℚ)
  | str (s : String)
  | arr (elems : List JVal)
  | obj (fields : List (String × JVal))

/-- Lookup in a parsed JSON object (dict.get with no default). -/
def jLookup (fields : List (String × JVal)) (key : String) : Option JVal :=
  match fields.find? (fun p => p.1 == key) with
  | some p => some p.2
  | none => none

/-- dict.get(key, default). -/
def jGetD (fields : List (String × JVal)) (key : String) (dflt : JVal) : JVal :=
  (jLookup fields key).getD dflt

/-- Digit run to a natural number. -/
def digitsToNat (l : List Char) : Nat :=
  l.foldl (fun n c => n * 10 + (c.toNat - 48)) 0

/-- Python float(s) on a string: optional sign, digits, optional fractional
part.  Exponent, infinity and nan spellings are outside the values the
provider JSON can carry here and are not modelled. -/
def pyFloatOfString (s : String) : Option ℚ :=
  let l := pyStrip s.data
  let signAndRest : ℚ × List Char :=
    match l with
    | '-' :: rest => (-1, rest)
    | '+' :: rest => (1, rest)
    | _ => (1, l)
  let sign := signAndRest.1
  let body := signAndRest.2
  let intPart := body.takeWhile Char.isDigit
  let rest := body.dropWhile Char.isDigit
  match rest with
  | [] =>
    if intPart.isEmpty then none
    else some (sign * (digitsToNat intPart : ℚ))
  | '.' :: frac =>
    if frac.all Char.isDigit && !(intPart.isEmpty && frac.isEmpty) then
      some (sign * ((digitsToNat intPart : ℚ) +
        mkRat (digitsToNat frac) (10 ^ frac.length)))
    else none
  | _ => none

/-- Python float(x) applied to a JSON value: numbers pass through, booleans
coerce to 0/1, numeric strings are parsed; float() raises TypeError on
null, lists and objects. -/
def pyFloat : JVal → Option ℚ
  | .num q => some q
  | .bool b => some (if b then 1 else 0)
  | .str s => pyFloatOfString s
  | _ => none

/-- Pydantic str field: non-string JSON values are rejected.
Modelled from the spec: models/analysis_models.py is not among the
sources; spec section 3 types these fields as strings. -/
def pyStr : JVal → Option String
  | .str s => some s
  | _ => none

/-- Pydantic Optional[int] field (the clause page).
Modelled from the spec: spec section 3 declares page an optional integer. -/
def pyOptInt : JVal → Option (Option Int)
  | .null => some none
  | .num q => if q.den = 1 then some (some q.num) else none
  | _ => none

/-- Modelled from the spec: models/analysis_models.py is not among the
sources.  KeyClause record of spec section 3. -/
structure KeyClause where
  type : String
  content : String
  importance : String
  classification : String
  risk_score : ℚ
  page : Option Int
  confidence : ℚ
deriving DecidableEq

/-- Modelled from the spec: models/analysis_models.py is not among the
sources.  AnalysisResult record of spec section 3. -/
structure AnalysisResult where
  summary : String
  key_clauses : List KeyClause
  document_type : String
  confidence : ℚ
deriving DecidableEq

/-- Outcome of one provider round trip, classified the way the except
ladder in ai_analyzer.py distinguishes cases: the generate call raised, the
raw text was empty (clean_json_response raises ValueError), json.loads
raised JSONDecodeError, or a JSON object was parsed.  The genai and json
libraries are external collaborators modelled at this interface. -/
inductive AttemptOutcome where
  | provErr (msg : String)
  | emptyResp
  | jsonErr
  | parsed (data : List (String × JVal))

/-- Request issued to the provider: the document text interpolated into the
prompt by create_analysis_prompt and whether the partial-document note was
appended (its is_fallback argument). -/
structure ProviderRequest where
  text : String
  fallbackMode : Bool
deriving DecidableEq

/-- Option-valued map used for the per-clause loop; None marks the first
clause whose construction raises. -/
def optionMapList (f : JVal → Option KeyClause) : List JVal → Option (List KeyClause)
  | [] => some []
  | j :: rest =>
    match f j, optionMapList f rest with
    | some c, some cs => some (c :: cs)
    | _, _ => none

/-- One iteration of the key-clause loop in ai_analyzer.py: clause.get
defaults, content truncation, float coercion of risk_score, and the
path-assigned clause confidence. -/
def buildKeyClause (contentLimit : Nat) (clauseConf : ℚ) : JVal → Option KeyClause
  | .obj fields =>
    match pyStr (jGetD fields "type" (.str "Unknown")),
          pyStr (jGetD fields "content" (.str "")),
          pyStr (jGetD fields "importance" (.str "low")),
          pyStr (jGetD fields "classification" (.str "Miscellaneous")),
          pyFloat (jGetD fields "risk_score" (.num 0)),
          pyOptInt (jGetD fields "page" .null) with
    | some ty, some ct, some imp, some cls, some risk, some pg =>
      some { type := ty, content := pyTake ct contentLimit, importance := imp,
             classification := cls, risk_score := risk, page := pg,
             confidence := clauseConf }
    | _, _, _, _, _, _ => none
  | _ => none

/-- The key_clauses loop: data.get yields a list to iterate; iteration over
a non-list value raises on its first element and is folded into None. -/
def buildKeyClauses (contentLimit : Nat) (clauseConf : ℚ) : JVal → Option (List KeyClause)
  | .arr elems => optionMapList (buildKeyClause contentLimit clauseConf) elems
  | _ => none

/-- Required top-level fields checked by analyze_document. -/
def requiredFields : List String :=
  ["summary", "key_clauses", "document_type", "confidence"]

/-- Primary-path result construction in analyze_document: required-field
check, clause loop with 500-char truncation and clause confidence 0.9,
then the result with confidence min(float(conf), 0.98). -/
def buildPrimaryResult (docType : String) (data : List (String × JVal)) :
    Option AnalysisResult :=
  if requiredFields.all (fun f => (jLookup data f).isSome) then
    match buildKeyClauses 500 (mkRat 9 10) (jGetD data "key_clauses" (.arr [])),
          pyStr (jGetD data "summary" (.str "No summary provided.")),
          pyStr (jGetD data "document_type" (.str (pyOrElse docType "Legal Document"))),
          pyFloat (jGetD data "confidence" (.num (mkRat 8 10))) with
    | some clauses, some summary, some dt, some conf =>
      some { summary := summary, key_clauses := clauses, document_type := dt,
             confidence := min conf (mkRat 98 100) }
    | _, _, _, _ => none
  else none

/-- create_fallback_result: the terminal single-Error-clause result. -/
def create_fallback_result (docType msg : String) : AnalysisResult :=
  { summary := "Analysis failed: " ++ msg ++
      ". Please try uploading a smaller document or contact support.",
    key_clauses := [{ type := "Error",
                      content := "Could not analyze document due to processing error.",
                      importance := "high", classification := "Miscellaneous",
                      risk_score := 10, page := none, confidence := 0 }],
    document_type := pyOrElse docType "Unknown Document",
    confidence := 0 }

/-- Reduced-scope chunk size used by fallback_analysis. -/
def fallback_chunk_size : Nat := 8000

/-- Fallback-path result construction in fallback_analysis: clause loop
with 200-char truncation and clause confidence 0.6, the partial-analysis
marker on the summary, and confidence min(float(conf), 0.7). -/
def buildFallbackData (docType : String) (data : List (String × JVal)) :
    Option AnalysisResult :=
  match buildKeyClauses 200 (mkRat 6 10) (jGetD data "key_clauses" (.arr [])),
        pyFloat (jGetD data "confidence" (.num (mkRat 6 10))),
        pyStr (jGetD data "summary" (.str "Limited analysis completed.")),
        pyStr (jGetD data "document_type" (.str docType)) with
  | some clauses, some conf, some summary, some dt =>
    some { summary := "[Partial Analysis] " ++ summary,
           key_clauses := clauses, document_type := dt,
           confidence := min conf (mkRat 7 10) }
  | _, _, _, _ => none

/-- The minimal single-clause result built when the fallback output does
not parse either. -/
def ultraFallbackResult (fallbackText docType : String) : AnalysisResult :=
  { summary := "Document processed with limited analysis due to processing constraints.",
    key_clauses := [{ type := "General Content",
                      content := if 200 < fallbackText.length
                                 then pyTake fallbackText 200 ++ "..."
                                 else fallbackText,
                      importance := "medium", classification := "Miscellaneous",
                      risk_score := 5, page := some 1, confidence := mkRat 5 10 }],
    document_type := pyOrElse docType "Legal Document",
    confidence := mkRat 5 10 }

/-- Stand-in for the Python exception text when result construction from
parsed data raises; only the control flow of the message is modelled. -/
def buildErrMsg : String := "could not build result from parsed data"

/-- fallback_analysis: one provider call on the first 8000 characters; the
bare except around clean/parse turns an empty response or a JSON error into
the ultra-fallback result, while a provider error or a construction error
reaches the outer handler and yields the terminal fallback result.  Also
returns the provider request issued. -/
def fallback_analysis (text docType : String) (fb : AttemptOutcome) :
    AnalysisResult × List ProviderRequest :=
  let fallbackText := pyTake text fallback_chunk_size
  let req : ProviderRequest := { text := fallbackText, fallbackMode := true }
  match fb with
  | .provErr msg => (create_fallback_result docType ("Fallback failed: " ++ msg), [req])
  | .emptyResp => (ultraFallbackResult fallbackText docType, [req])
  | .jsonErr => (ultraFallbackResult fallbackText docType, [req])
  | .parsed data =>
    match buildFallbackData docType data with
    | some r => (r, [req])
    | none => (create_fallback_result docType ("Fallback failed: " ++ buildErrMsg), [req])

/-- How one primary attempt ends when it does not return: a JSONDecodeError
(handled by the first except arm) or any other exception (second arm). -/
inductive AttemptFail where
  | jsonFail
  | generalFail (msg : String)

/-- One primary attempt of analyze_document. -/
def primaryAttempt (docType : String) (o : AttemptOutcome) :
    Except AttemptFail AnalysisResult :=
  match o with
  | .provErr msg => .error (.generalFail msg)
  | .emptyResp => .error (.generalFail "Empty response from AI")
  | .jsonErr => .error .jsonFail
  | .parsed data =>
    match buildPrimaryResult docType data with
    | some r => .ok r
    | none => .error (.generalFail buildErrMsg)

/-- analyze_document: truncate to 12000 characters, try up to three primary
attempts, then dispatch on how the final attempt failed: a JSON failure
goes to fallback_analysis, any other failure to create_fallback_result.
The oracle arguments give the outcome of each potential provider call in
order; the returned list records the provider requests actually issued. -/
def analyze_document (text docType : String) (o1 o2 o3 fb : AttemptOutcome) :
    AnalysisResult × List ProviderRequest :=
  let analysisText := pyTake text 12000
  let preq : ProviderRequest := { text := analysisText, fallbackMode := false }
  match primaryAttempt docType o1 with
  | .ok r => (r, [preq])
  | .error _ =>
    match primaryAttempt docType o2 with
    | .ok r => (r, [preq, preq])
    | .error _ =>
      match primaryAttempt docType o3 with
      | .ok r => (r, [preq, preq, preq])
      | .error .jsonFail =>
        let fr := fallback_analysis text docType fb
        (fr.1, [preq, preq, preq] ++ fr.2)
      | .error (.generalFail msg) =>
        (create_fallback_result docType msg, [preq, preq, preq])

/-- Modelled from the spec: models/analysis_models.py is not among the
sources.  ExtractionResult record of spec section 3 (processing_time, a
wall-clock float, is not modelled). -/
structure DocumentProcessingResult where
  success : Bool
  extracted_text : String := ""
  total_pages : Nat := 0
  word_count : Nat := 0
  processing_notes : List String := []
  error_message : Option String := none
deriving DecidableEq

/-- Minimum embedded-text length below which a PDF page goes to OCR. -/
def ocrMinTextLen : Nat := 50

/-- Zoom matrix passed to page.get_pixmap by _ocr_pdf_page. -/
structure OcrCall where
  zoomX : Nat
  zoomY : Nat
deriving DecidableEq

/-- fitz.Matrix(2, 2): the 2x render used before OCR. -/
def ocrRenderCall : OcrCall := { zoomX := 2, zoomY := 2 }

/-- Result of handling one PDF page: the text kept for the page, the
pixmap render request issued to OCR the page (if any), and whether the OCR
text was substituted (the ocr_pages counter increment). -/
structure PageOutcome where
  text : String
  ocrCall : Option OcrCall
  ocrApplied : Bool

/-- Per-page logic of _process_pdf.  The embedded text layer is the page's
get_text() result; ocrOutcome is the raw Tesseract output for the rendered
page, none when the OCR call raised (caught per page).  _ocr_pdf_page
returns its text stripped. -/
def processPage (tesseractAvailable : Bool) (pageNum : Nat) (emb : String)
    (ocrOutcome : Option String) : PageOutcome :=
  if pyStripS emb = "" ∨ (pyStripS emb).length < ocrMinTextLen then
    if tesseractAvailable then
      match ocrOutcome with
      | some raw =>
        let ocrText := pyStripS raw
        if ocrText ≠ "" ∧ (pyStripS emb).length < (pyStripS ocrText).length then
          { text := ocrText, ocrCall := some ocrRenderCall, ocrApplied := true }
        else
          { text := emb, ocrCall := some ocrRenderCall, ocrApplied := false }
      | none => { text := emb, ocrCall := some ocrRenderCall, ocrApplied := false }
    else
      { text := "[Page " ++ toString (pageNum + 1) ++
          ": Text extraction failed - OCR not available]",
        ocrCall := none, ocrApplied := false }
  else
    { text := emb, ocrCall := none, ocrApplied := false }

/-- One PDF page as _process_pdf observes it: either load_page/get_text
succeeded, giving the embedded text and the OCR oracle for the page, or it
raised (caught per page, substituting an error placeholder). -/
inductive PageSpec where
  | ok (emb : String) (ocrOutcome : Option String)
  | failed

/-- Page delimiter prepended to every page's text in the aggregate. -/
def pageHeader (pageNum : Nat) : String :=
  "\n--- Page " ++ toString (pageNum + 1) ++ " ---\n"

/-- The page loop of _process_pdf: aggregate text and OCR-substituted page
count, iterating in order from the given page index. -/
def processPdfPagesAux (tesseractAvailable : Bool) : Nat → List PageSpec → String × Nat
  | _, [] => ("", 0)
  | i, p :: rest =>
    let chunkApplied : String × Nat :=
      match p with
      | .ok emb ocrOutcome =>
        let po := processPage tesseractAvailable i emb ocrOutcome
        (pageHeader i ++ po.text ++ "\n", if po.ocrApplied then 1 else 0)
      | .failed =>
        (pageHeader i ++ "[Error extracting text from this page]\n", 0)
    let restPair := processPdfPagesAux tesseractAvailable (i + 1) rest
    (chunkApplied.1 ++ restPair.1, chunkApplied.2 + restPair.2)

/-- _process_pdf.  openOutcome is the result of fitz.open on the file: the
list of pages, or the exception it raised; a raise anywhere in the body is
re-raised by the except arm of _process_pdf (hence the Except result). -/
def process_pdf (tesseractAvailable : Bool)
    (openOutcome : Except String (List PageSpec)) :
    Except String DocumentProcessingResult :=
  match openOutcome with
  | .error e => .error e
  | .ok pages =>
    let agg := processPdfPagesAux tesseractAvailable 0 pages
    let notes :=
      (if 0 < agg.2 then ["OCR applied to " ++ toString agg.2 ++ " pages"] else []) ++
      (if !tesseractAvailable ∧ 0 < pages.length
       then ["OCR unavailable - some text may be missing"] else [])
    .ok { success := true,
          extracted_text := pyStripS agg.1,
          total_pages := pages.length,
          word_count := (pyTokens agg.1).length,
          processing_notes := notes }

/-- _process_image.  openOutcome is Image.open plus enhancement (raises
propagate); firstOcr and secondOcr are the two Tesseract calls, the second
issued only when the first yields no text after stripping; a raise in
either propagates out of _process_image. -/
def process_image (tesseractAvailable : Bool) (width height : Nat)
    (openOutcome : Except String Unit)
    (firstOcr secondOcr : Except String String) :
    Except String DocumentProcessingResult :=
  if !tesseractAvailable then
    .ok { success := false,
          error_message := some "OCR not available. Please install Tesseract to process images.",
          processing_notes := ["Install Tesseract OCR: https://github.com/tesseract-ocr/tesseract"] }
  else
    match openOutcome with
    | .error e => .error e
    | .ok _ =>
      match firstOcr with
      | .error e => .error e
      | .ok t1 =>
        let afterRetry : Except String String :=
          if pyStripS t1 = "" then secondOcr else .ok t1
        match afterRetry with
        | .error e => .error e
        | .ok t2 =>
          if pyStripS t2 = "" then
            .ok { success := true,
                  extracted_text := pyStripS "[No text could be extracted from this image. Try improving image quality or contrast.]",
                  total_pages := 1,
                  word_count := (pyTokens "[No text could be extracted from this image. Try improving image quality or contrast.]").length,
                  processing_notes :=
                    ["No text detected in image",
                     "Tips: Ensure text is clear, high contrast, and properly oriented"] }
          else
            .ok { success := true,
                  extracted_text := pyStripS t2,
                  total_pages := 1,
                  word_count := (pyTokens t2).length,
                  processing_notes :=
                    ["OCR processed image: " ++ toString width ++ "x" ++
                     toString height ++ "px"] }

/-- process_document.  The inner argument is the outcome of the dispatched
handler (_process_pdf or _process_image): its value, or the exception it
let escape.  The surrounding try of process_document converts any such
exception into a failure result, so the caller always receives a
DocumentProcessingResult (hence the result is always ok). -/
def process_document (filePath : String) (fileExists : Bool) (fileType : String)
    (inner : Except String DocumentProcessingResult) :
    Except String DocumentProcessingResult :=
  .ok (
    if !fileExists then
      { success := false, error_message := some ("File not found: " ++ filePath) }
    else if fileType = "pdf" ∨ fileType = "image" then
      match inner with
      | .ok r => r
      | .error e => { success := false, error_message := some ("Processing error: " ++ e) }
    else
      { success := false, error_message := some ("Unsupported file type: " ++ fileType) })

/-- Modelled from the spec: models/analysis_models.py is not among the
sources.  ValidationResult record of spec section 3. -/
structure FileValidationResult where
  is_valid : Bool
  file_type : String
  file_extension : String
  file_size : Nat
  error_message : Option String := none
deriving DecidableEq

/-- Extension allow-list from config.Settings.ALLOWED_EXTENSIONS. -/
def allowed_extensions : List String :=
  [".pdf", ".png", ".jpg", ".jpeg", ".tiff", ".bmp"]

/-- MIME allow-list of FileValidator; listed in source declaration order
(the Python value is a set, whose join order is unspecified). -/
def allowed_mime_types : List String :=
  ["application/pdf", "image/png", "image/jpeg", "image/tiff", "image/bmp"]

/-- Size limit: settings.MAX_FILE_SIZE_MB * 1024 * 1024. -/
def max_file_size : Nat := 50 * 1024 * 1024

/-- os.path.splitext(name)[1].lower() for an uploaded filename (which
carries no directory separator): the final dot-suffix, empty when there is
no dot or only leading dots before it. -/
def splitextExt (name : String) : String :=
  let l := name.data
  let tailRun := l.reverse.takeWhile (fun c => c ≠ '.')
  if tailRun.length = l.length then ""
  else
    let dotIdx := l.length - tailRun.length - 1
    if (l.take dotIdx).all (fun c => c = '.') then ""
    else String.mk ((l.drop dotIdx).map Char.toLower)

/-- str.lstrip(chars) restricted to the dot, as used on the extension. -/
def lstripDot (s : String) : String :=
  String.mk (s.data.dropWhile (fun c => c = '.'))

/-- Substring membership, Python in on strings. -/
def strContains (needle hay : List Char) : Bool :=
  match hay with
  | [] => needle.isEmpty
  | _ :: rest => needle.isPrefixOf hay || strContains needle rest

/-- One decimal of the byte count in MB for the oversize message; rendered
by truncation where Python format rounds to nearest (the branch is not
exercised by any claim). -/
def oneDecimalMB (bytes : Nat) : String :=
  let tenths := bytes * 10 / (1024 * 1024)
  toString (tenths / 10) ++ "." ++ toString (tenths % 10)

/-- The I/O done inside validate_file, as the outcomes of the external
calls: file.read/seek (giving the content size) and magic.from_buffer
(giving the sniffed MIME type); an error is the exception the call raised. -/
structure UploadOracle where
  readBytes : Except String Nat
  sniff : Except String String

/-- Body of FileValidator.validate_file up to its outermost try: the
ordered short-circuiting checks.  An error escaping here is what the
except arm of validate_file catches. -/
def validateInner (filename : String) (o : UploadOracle) :
    Except String FileValidationResult :=
  if filename = "" then
    .ok { is_valid := false, file_type := "unknown", file_extension := "",
          file_size := 0, error_message := some "No filename provided" }
  else
    let ext := splitextExt filename
    if !(allowed_extensions.contains ext) then
      .ok { is_valid := false, file_type := "unknown", file_extension := ext,
            file_size := 0,
            error_message := some ("File extension '" ++ ext ++ "' not allowed. Supported: " ++
              String.intercalate ", " allowed_extensions) }
    else
      match o.readBytes with
      | .error e => .error e
      | .ok size =>
        if max_file_size < size then
          .ok { is_valid := false, file_type := "unknown", file_extension := ext,
                file_size := size,
                error_message := some ("File size (" ++ oneDecimalMB size ++
                  "MB) exceeds maximum allowed size (50.0MB)") }
        else if size = 0 then
          .ok { is_valid := false, file_type := "unknown", file_extension := ext,
                file_size := size, error_message := some "File is empty" }
        else
          match o.sniff with
          | .error e => .error e
          | .ok mime =>
            if !(allowed_mime_types.contains mime) then
              .ok { is_valid := false, file_type := "unknown", file_extension := ext,
                    file_size := size,
                    error_message := some ("Invalid file type: " ++ mime ++
                      ". Supported types are: " ++ String.intercalate ", " allowed_mime_types) }
            else if ext = ".pdf" ∧ mime ≠ "application/pdf" then
              .ok { is_valid := false, file_type := "unknown", file_extension := ext,
                    file_size := size,
                    error_message := some ("File extension '" ++ ext ++
                      "' does not match MIME type '" ++ mime ++ "'") }
            else if (ext = ".jpg" ∨ ext = ".jpeg") ∧ mime ≠ "image/jpeg" then
              .ok { is_valid := false, file_type := "unknown", file_extension := ext,
                    file_size := size,
                    error_message := some ("File extension '" ++ ext ++
                      "' does not match MIME type '" ++ mime ++ "'") }
            else if ext = ".png" ∧ mime ≠ "image/png" then
              .ok { is_valid := false, file_type := "unknown", file_extension := ext,
                    file_size := size,
                    error_message := some ("File extension '" ++ ext ++
                      "' does not match MIME type '" ++ mime ++ "'") }
            else
              .ok { is_valid := true,
                    file_type := if strContains "pdf".data mime.data then "pdf" else "image",
                    file_extension := lstripDot ext,
                    file_size := size }

/-- FileValidator.validate_file: the body wrapped in the outermost
try/except, which converts any internal exception into an invalid result
carrying a Validation error message. -/
def validate_file (filename : String) (o : UploadOracle) : FileValidationResult :=
  match validateInner filename o with
  | .ok r => r
  | .error e =>
    { is_valid := false, file_type := "unknown", file_extension := "",
      file_size := 0, error_message := some ("Validation error: " ++ e) }

/-- One analysis_cache entry as built by the /analyze handler in main.py
(the timestamp is an abstract tick; processing_time a rational). -/
structure CacheEntry where
  analysis : AnalysisResult
  file_path : String
  original_filename : String
  content_type : String
  timestamp : Int
  processing_time : ℚ
  file_size : Nat
  processing_notes : List String
  file_hash : String
deriving DecidableEq

/-- The analysis cache: a Python dict in insertion order. -/
abbrev Cache := List (String × CacheEntry)

/-- Events on the shared state, in program order: cache reads and writes,
asyncio lock acquisition/release, and the two heavy stage calls. -/
inductive PipelineEvent where
  | cacheRead
  | cacheWrite
  | lockAcquire
  | lockRelease
  | extractCall
  | analyzeCall
deriving DecidableEq

/-- The dedup scan: first cache entry whose file_hash matches. -/
def findByHash (cache : Cache) (h : String) : Option (String × CacheEntry) :=
  List.find? (fun p => p.2.file_hash == h) cache

/-- Response payload of /analyze: the model_dump of the analysis updated
with the file_id and extraction metadata. -/
structure AnalyzeResponse where
  analysis : AnalysisResult
  file_id : String
  processing_time : ℚ
  total_pages : Nat
  word_count : Nat
  processing_notes : List String
deriving DecidableEq

/-- What one /analyze request produces: the HTTP outcome (an error is the
status code raised), the cache afterwards, and the shared-state events in
order. -/
structure AnalyzeOutcome where
  response : Except Nat AnalyzeResponse
  cache : Cache
  events : List PipelineEvent

/-- The /analyze handler in main.py after streaming and hashing, run under
the semaphore but never under analysis_lock: validation gate, dedup scan
keyed by content hash (returning the cached entry tagged with the original
file_id and the stored metadata defaults), else extraction, analysis and
cache insert keyed by the freshly generated id.  extraction and analysis
stand for the stage results the two services return. -/
def analyzeFlow (cache : Cache) (freshId : String)
    (validation : FileValidationResult) (fileHash : String) (fileSize : Nat)
    (originalFilename contentType tempPath : String) (now : Int)
    (extraction : DocumentProcessingResult) (analysis : AnalysisResult)
    (processingTime : ℚ) : AnalyzeOutcome :=
  if !validation.is_valid then
    { response := .error 400, cache := cache, events := [] }
  else
    match findByHash cache fileHash with
    | some hit =>
      { response := .ok { analysis := hit.2.analysis, file_id := hit.1,
                          processing_time := hit.2.processing_time,
                          total_pages := 0, word_count := 0,
                          processing_notes := hit.2.processing_notes },
        cache := cache, events := [.cacheRead] }
    | none =>
      if !extraction.success then
        { response := .error 500, cache := cache,
          events := [.cacheRead, .extractCall] }
      else
        { response := .ok { analysis := analysis, file_id := freshId,
                            processing_time := processingTime,
                            total_pages := extraction.total_pages,
                            word_count := extraction.word_count,
                            processing_notes := extraction.processing_notes },
          cache := cache ++ [(freshId,
            { analysis := analysis, file_path := tempPath,
              original_filename := originalFilename, content_type := contentType,
              timestamp := now, processing_time := processingTime,
              file_size := fileSize, processing_notes := extraction.processing_notes,
              file_hash := fileHash })],
          events := [.cacheRead, .extractCall, .analyzeCall, .cacheWrite] }

/-- The DELETE /analyses handler: under analysis_lock, iterate a snapshot
of the entries deleting backing files, then clear; returns the count. -/
def clearFlow (cache : Cache) : Nat × Cache × List PipelineEvent :=
  (cache.length, ([] : Cache),
   [PipelineEvent.lockAcquire] ++ cache.map (fun _ => PipelineEvent.cacheRead) ++
   [PipelineEvent.cacheWrite, PipelineEvent.lockRelease])

/-- Modelled from the spec: services/retention_jobs.py is not among the
sources.  Spec section 4.6: each retention cycle takes the cache's
exclusive lock, scans a snapshot of the entries, and removes every entry
whose timestamp precedes the cutoff. -/
def sweepFlow (cache : Cache) (cutoff : Int) : Cache × List PipelineEvent :=
  (List.filter (fun p => !(p.2.timestamp < cutoff)) cache,
   [PipelineEvent.lockAcquire] ++ cache.map (fun _ => PipelineEvent.cacheRead) ++
   [PipelineEvent.cacheWrite, PipelineEvent.lockRelease])

/-- Lock-depth check worker: every cache access must occur at positive
lock depth. -/
def guardedAux : Nat → List PipelineEvent → Bool
  | _, [] => true
  | d, PipelineEvent.lockAcquire :: rest => guardedAux (d + 1) rest
  | d, PipelineEvent.lockRelease :: rest => guardedAux (d - 1) rest
  | d, PipelineEvent.cacheRead :: rest => (d != 0) && guardedAux d rest
  | d, PipelineEvent.cacheWrite :: rest => (d != 0) && guardedAux d rest
  | d, PipelineEvent.extractCall :: rest => guardedAux d rest
  | d, PipelineEvent.analyzeCall :: rest => guardedAux d rest

/-- An event sequence goes through the lock when all of its cache reads
and writes happen while the lock is held. -/
def guardedByLock (events : List PipelineEvent) : Bool :=
  guardedAux 0 events

/-! Theorems about the embedded program. -/

/-- A string defaulted through Python or is nonempty when the default is. -/
theorem pyOrElse_ne (s d : String) (hd : d ≠ "") : pyOrElse s d ≠ "" := by
  unfold pyOrElse
  split
  · exact hd
  · assumption

/-- Claim C3 counterexample: an exception raised during PDF handling
(here, the string standing for a fitz.open failure re-raised by
_process_pdf) does not propagate out of process_document; the surrounding
handler converts it into a failure result. -/
theorem c3_counterexample :
    process_document "doc.pdf" true "pdf" (Except.error "fitz open failure") ≠
      Except.error "fitz open failure" ∧
    process_document "doc.pdf" true "pdf" (Except.error "fitz open failure") =
      Except.ok { success := false,
                  error_message := some "Processing error: fitz open failure" } := by
  exact ⟨by simp [process_document], rfl⟩

/-- Claim C3 (amended): unhandled exceptions during PDF handling propagate
out of the page-level handler _process_pdf (and _process_image mirrors
this), but process_document catches every such exception and returns a
DocumentProcessingResult with success false and a Processing error
message; no exception reaches process_document's caller. -/
theorem c3_exceptions_caught (e filePath : String) (avail : Bool)
    (w h : Nat) (fo so : Except String String) :
    process_pdf avail (Except.error e) = Except.error e ∧
    process_image true w h (Except.error e) fo so = Except.error e ∧
    process_document filePath true "pdf" (Except.error e) =
      Except.ok { success := false, error_message := some ("Processing error: " ++ e) } ∧
    process_document filePath true "image" (Except.error e) =
      Except.ok { success := false, error_message := some ("Processing error: " ++ e) } := by
  exact ⟨rfl, rfl, rfl, rfl⟩

/-- Validation result used by the concrete pipeline runs below. -/
def exampleValidation : FileValidationResult :=
  { is_valid := true, file_type := "pdf", file_extension := "pdf", file_size := 10 }

/-- Analysis value used by the concrete pipeline runs below. -/
def exampleAnalysis : AnalysisResult :=
  { summary := "s", key_clauses := [], document_type := "d", confidence := 0 }

/-- Extraction value used by the concrete pipeline runs below. -/
def exampleExtraction : DocumentProcessingResult := { success := true }

/-- Claim C9 counterexample: a fresh /analyze run performs its dedup scan
and its cache insert with no lock acquisition at all, so this
read-modify-write sequence does not go through the process-wide lock. -/
theorem c9_counterexample :
    (analyzeFlow [] "id0" exampleValidation "h0" 10 "a.pdf" "application/pdf" "p" 0
       exampleExtraction exampleAnalysis 1).events =
      [PipelineEvent.cacheRead, PipelineEvent.extractCall,
       PipelineEvent.analyzeCall, PipelineEvent.cacheWrite] ∧
    guardedByLock (analyzeFlow [] "id0" exampleValidation "h0" 10 "a.pdf" "application/pdf" "p" 0
       exampleExtraction exampleAnalysis 1).events = false := by
  exact ⟨rfl, rfl⟩

/-- Reads pass through the lock-depth check while the lock is held. -/
theorem guardedAux_replicate_read (n d : Nat) (rest : List PipelineEvent) (hd : d ≠ 0) :
    guardedAux d (List.replicate n PipelineEvent.cacheRead ++ rest) = guardedAux d rest := by
  induction n with
  | zero => rfl
  | succ n ih => simp [List.replicate_succ, guardedAux, hd, ih]

/-- Claim C9 (amended): only the bulk clear and the retention sweep go
through the process-wide exclusive lock; the /analyze handler's dedup scan
and cache insert touch the cache without ever acquiring it (they are
serialized only by the event loop and bounded by the semaphore). -/
theorem c9_lock_discipline (cache : Cache) (cutoff : Int) (freshId : String)
    (vr : FileValidationResult) (h : String) (sz : Nat) (ofn ct tp : String)
    (now : Int) (ex : DocumentProcessingResult) (an : AnalysisResult) (pt : ℚ) :
    guardedByLock (clearFlow cache).2.2 = true ∧
    guardedByLock (sweepFlow cache cutoff).2 = true ∧
    (analyzeFlow cache freshId vr h sz ofn ct tp now ex an pt).events.all
      (fun e => e != PipelineEvent.lockAcquire && e != PipelineEvent.lockRelease) = true := by
  refine ⟨?_, ?_, ?_⟩
  · show guardedAux 0 ([PipelineEvent.lockAcquire] ++ cache.map (fun _ => PipelineEvent.cacheRead) ++
      [PipelineEvent.cacheWrite, PipelineEvent.lockRelease]) = true
    rw [List.map_const']
    show guardedAux 1 (List.replicate cache.length PipelineEvent.cacheRead ++
      [PipelineEvent.cacheWrite, PipelineEvent.lockRelease]) = true
    rw [guardedAux_replicate_read _ _ _ (by omega)]
    rfl
  · show guardedAux 0 ([PipelineEvent.lockAcquire] ++ cache.map (fun _ => PipelineEvent.cacheRead) ++
      [PipelineEvent.cacheWrite, PipelineEvent.lockRelease]) = true
    rw [List.map_const']
    show guardedAux 1 (List.replicate cache.length PipelineEvent.cacheRead ++
      [PipelineEvent.cacheWrite, PipelineEvent.lockRelease]) = true
    rw [guardedAux_replicate_read _ _ _ (by omega)]
    rfl
  · unfold analyzeFlow
    split
    · rfl
    · split
      · rfl
      · split <;> rfl

/-- Claim C10: validate_file is total at its interface: when the body
raises, the caller still receives a FileValidationResult that is invalid,
of unknown type, with a Validation error message; when the body returns, the
caller receives that result unchanged. -/
theorem c10_validate_total (filename : String) (o : UploadOracle) :
    (∀ e, validateInner filename o = Except.error e →
      validate_file filename o =
        { is_valid := false, file_type := "unknown", file_extension := "",
          file_size := 0, error_message := some ("Validation error: " ++ e) }) ∧
    (∀ r, validateInner filename o = Except.ok r → validate_file filename o = r) := by
  constructor
  · intro e he
    simp [validate_file, he]
  · intro r hr
    simp [validate_file, hr]

/-- Claim C10 witness: a read failure inside validation surfaces as an
invalid result with a Validation error message. -/
theorem c10_validate_total_witness :
    validate_file "x.pdf" ⟨Except.error "read failure", Except.ok "application/pdf"⟩ =
      { is_valid := false, file_type := "unknown", file_extension := "",
        file_size := 0, error_message := some ("Validation error: " ++ "read failure") } := by
  exact (c10_validate_total "x.pdf"
    ⟨Except.error "read failure", Except.ok "application/pdf"⟩).1 "read failure" rfl

/-- Claim C7 counterexample: a 10-byte upload named x.pdf whose content
sniffs as PNG fails validation with the extension-to-MIME mismatch
message, but the file_extension field of the result is ".pdf" with its
leading dot, not "pdf". -/
theorem c7_counterexample :
    (validate_file "x.pdf" ⟨Except.ok 10, Except.ok "image/png"⟩).is_valid = false ∧
    (validate_file "x.pdf" ⟨Except.ok 10, Except.ok "image/png"⟩).error_message =
      some "File extension '.pdf' does not match MIME type 'image/png'" ∧
    (validate_file "x.pdf" ⟨Except.ok 10, Except.ok "image/png"⟩).file_extension = ".pdf" ∧
    (validate_file "x.pdf" ⟨Except.ok 10, Except.ok "image/png"⟩).file_extension ≠ "pdf" := by
  refine ⟨rfl, rfl, rfl, by decide⟩

/-- Claim C2: when the upload's content hash matches a cache entry, the
/analyze handler answers with the original cached file_id (not the freshly
generated one), leaves the cache unchanged, and issues neither the
extraction nor the AI analysis call. -/
theorem c2_dedup_returns_cached (cache : Cache) (freshId : String)
    (vr : FileValidationResult) (h : String) (sz : Nat) (ofn ct tp : String)
    (now : Int) (ex : DocumentProcessingResult) (an : AnalysisResult) (pt : ℚ)
    (eid : String) (entry : CacheEntry)
    (hvalid : vr.is_valid = true)
    (hhit : findByHash cache h = some (eid, entry))
    (hfresh : ∀ p ∈ cache, p.1 ≠ freshId) :
    ∃ resp, (analyzeFlow cache freshId vr h sz ofn ct tp now ex an pt).response =
        Except.ok resp ∧
      resp.file_id = eid ∧
      resp.file_id ≠ freshId ∧
      resp.analysis = entry.analysis ∧
      (analyzeFlow cache freshId vr h sz ofn ct tp now ex an pt).cache = cache ∧
      (analyzeFlow cache freshId vr h sz ofn ct tp now ex an pt).events.contains
        PipelineEvent.extractCall = false ∧
      (analyzeFlow cache freshId vr h sz ofn ct tp now ex an pt).events.contains
        PipelineEvent.analyzeCall = false := by
  have hmem : (eid, entry) ∈ cache := List.mem_of_find?_eq_some hhit
  have hne : eid ≠ freshId := hfresh (eid, entry) hmem
  have hflow : analyzeFlow cache freshId vr h sz ofn ct tp now ex an pt =
      { response :=
          Except.ok
            { analysis := entry.analysis
              file_id := eid
              processing_time := entry.processing_time
              total_pages := 0
              word_count := 0
              processing_notes := entry.processing_notes }
        cache := cache
        events := [PipelineEvent.cacheRead] } := by
    unfold analyzeFlow
    rw [hvalid, hhit]
    rfl
  rw [hflow]
  exact ⟨_, rfl, rfl, hne, rfl, rfl, rfl, rfl⟩

/-- Cache entry used by the concrete dedup run below. -/
def exampleEntry : CacheEntry :=
  { analysis := exampleAnalysis, file_path := "p0", original_filename := "a.pdf",
    content_type := "application/pdf", timestamp := 0, processing_time := 1,
    file_size := 10, processing_notes := [], file_hash := "h0" }

/-- Claim C2 witness: a byte-identical re-upload against a one-entry cache
comes back tagged with the cached id id0, not the fresh id id1. -/
theorem c2_dedup_returns_cached_witness :
    ∃ resp, (analyzeFlow [("id0", exampleEntry)] "id1" exampleValidation "h0" 10
        "a.pdf" "application/pdf" "p" 0 exampleExtraction exampleAnalysis 1).response =
        Except.ok resp ∧
      resp.file_id = "id0" ∧
      resp.file_id ≠ "id1" ∧
      resp.analysis = exampleEntry.analysis ∧
      (analyzeFlow [("id0", exampleEntry)] "id1" exampleValidation "h0" 10
        "a.pdf" "application/pdf" "p" 0 exampleExtraction exampleAnalysis 1).cache =
        [("id0", exampleEntry)] ∧
      (analyzeFlow [("id0", exampleEntry)] "id1" exampleValidation "h0" 10
        "a.pdf" "application/pdf" "p" 0 exampleExtraction exampleAnalysis 1).events.contains
        PipelineEvent.extractCall = false ∧
      (analyzeFlow [("id0", exampleEntry)] "id1" exampleValidation "h0" 10
        "a.pdf" "application/pdf" "p" 0 exampleExtraction exampleAnalysis 1).events.contains
        PipelineEvent.analyzeCall = false := by
  exact c2_dedup_returns_cached [("id0", exampleEntry)] "id1" exampleValidation "h0" 10
    "a.pdf" "application/pdf" "p" 0 exampleExtraction exampleAnalysis 1 "id0" exampleEntry
    (by decide) (by decide) (by decide)

/-- Claim C5: on a PDF page whose stripped embedded text is empty or
shorter than 50 characters, with OCR available, the page is rendered with
the 2x zoom matrix and OCR is attempted; the (stripped) OCR output
replaces the embedded text exactly when it is strictly longer than the
stripped embedded text, so a longer embedded extraction is never replaced
by a shorter OCR result.  Lengths are of whitespace-stripped text, as the
code compares them. -/
theorem c5_ocr_substitution (emb raw : String) (pageNum : Nat)
    (hshort : pyStripS emb = "" ∨ (pyStripS emb).length < ocrMinTextLen) :
    ocrMinTextLen = 50 ∧
    (processPage true pageNum emb (some raw)).ocrCall = some { zoomX := 2, zoomY := 2 } ∧
    ((pyStripS emb).length < (pyStripS (pyStripS raw)).length →
      (processPage true pageNum emb (some raw)).text = pyStripS raw) ∧
    ((pyStripS (pyStripS raw)).length ≤ (pyStripS emb).length →
      (processPage true pageNum emb (some raw)).text = emb) := by
  have hred : processPage true pageNum emb (some raw) =
      if pyStripS raw ≠ "" ∧ (pyStripS emb).length < (pyStripS (pyStripS raw)).length then
        { text := pyStripS raw, ocrCall := some ocrRenderCall, ocrApplied := true }
      else
        { text := emb, ocrCall := some ocrRenderCall, ocrApplied := false } := by
    unfold processPage
    rw [if_pos hshort]
    rfl
  refine ⟨rfl, ?_, ?_, ?_⟩
  · rw [hred]
    split <;> rfl
  · intro hlt
    have hne : pyStripS raw ≠ "" := by
      intro hempty
      rw [hempty] at hlt
      simp [pyStripS, pyStrip] at hlt
    rw [hred, if_pos ⟨hne, hlt⟩]
  · intro hle
    rw [hred, if_neg]
    rintro ⟨-, hlt⟩
    omega

/-- Claim C5 witness: a 3-character embedded layer is OCRed at 2x zoom and
replaced by the longer recovered text; with the inequality reversed the
embedded text would be kept. -/
theorem c5_ocr_substitution_witness :
    (processPage true 0 "abc" (some " recovered ocr text ")).ocrCall =
      some { zoomX := 2, zoomY := 2 } ∧
    (processPage true 0 "abc" (some " recovered ocr text ")).text =
      pyStripS " recovered ocr text " := by
  exact ⟨(c5_ocr_substitution "abc" " recovered ocr text " 0 (by decide)).2.1,
    (c5_ocr_substitution "abc" " recovered ocr text " 0 (by decide)).2.2.1 (by decide)⟩

/-- Whether a provider round trip yielded a parsed JSON object. -/
def isParsed : AttemptOutcome → Bool
  | .parsed _ => true
  | _ => false

/-- Claim C4: when the provider fails on every retry attempt with
non-parseable output (and the fallback attempt is non-parseable too), the
returned result still carries a nonempty document_type and at least one
key clause. -/
theorem c4_total_failure_nonempty (text docType : String) (o1 o2 o3 fb : AttemptOutcome)
    (h1 : isParsed o1 = false) (h2 : isParsed o2 = false) (h3 : isParsed o3 = false)
    (hfb : isParsed fb = false) :
    (analyze_document text docType o1 o2 o3 fb).1.document_type ≠ "" ∧
    (analyze_document text docType o1 o2 o3 fb).1.key_clauses ≠ [] := by
  have hUD : pyOrElse docType "Unknown Document" ≠ "" := pyOrElse_ne _ _ (by decide)
  have hLD : pyOrElse docType "Legal Document" ≠ "" := pyOrElse_ne _ _ (by decide)
  cases o1 <;> cases o2 <;> cases o3 <;> cases fb <;>
    simp_all [isParsed, analyze_document, primaryAttempt, fallback_analysis,
      create_fallback_result, ultraFallbackResult]

/-- Claim C4 witness: three JSON failures followed by a non-parseable
fallback and an empty document-type hint still yield a named document type
and one clause. -/
theorem c4_total_failure_nonempty_witness :
    (analyze_document "doc" ""
      AttemptOutcome.jsonErr AttemptOutcome.jsonErr AttemptOutcome.jsonErr
      AttemptOutcome.jsonErr).1.document_type ≠ "" ∧
    (analyze_document "doc" ""
      AttemptOutcome.jsonErr AttemptOutcome.jsonErr AttemptOutcome.jsonErr
      AttemptOutcome.jsonErr).1.key_clauses ≠ [] := by
  exact c4_total_failure_nonempty "doc" "" AttemptOutcome.jsonErr AttemptOutcome.jsonErr
    AttemptOutcome.jsonErr AttemptOutcome.jsonErr rfl rfl rfl rfl

/-- The confidence value the provider data carries (after the source's
dict.get default and float coercion) is nonnegative; vacuous when the
coercion raises. -/
def jConfNonneg (dflt : ℚ) (data : List (String × JVal)) : Bool :=
  match pyFloat (jGetD data "confidence" (.num dflt)) with
  | some q => decide (0 ≤ q)
  | none => true

/-- The clause's risk_score (after default and float coercion) lies in
[0, 10]; vacuous when the clause is not an object or the coercion raises. -/
def jClauseRiskOK : JVal → Bool
  | .obj fields =>
    match pyFloat (jGetD fields "risk_score" (.num 0)) with
    | some q => decide (0 ≤ q ∧ q ≤ 10)
    | none => true
  | _ => true

/-- All clauses of the data's key_clauses list have in-range risk scores. -/
def jClausesOK (data : List (String × JVal)) : Bool :=
  match jGetD data "key_clauses" (.arr []) with
  | .arr elems => elems.all jClauseRiskOK
  | _ => true

/-- A provider outcome whose parsed data (if any) carries a nonnegative
confidence and in-range risk scores. -/
def outcomeInRange (dflt : ℚ) : AttemptOutcome → Bool
  | .parsed data => jConfNonneg dflt data && jClausesOK data
  | _ => true

/-- Primary-path well-formedness: the dict.get default for confidence is
0.8 there. -/
def outcomeInRangePrimary : AttemptOutcome → Bool :=
  outcomeInRange (mkRat 8 10)

/-- Fallback-path well-formedness: the dict.get default for confidence is
0.6 there. -/
def outcomeInRangeFallback : AttemptOutcome → Bool :=
  outcomeInRange (mkRat 6 10)

/-- The property claimed of every analysis result: confidence in
[0, 0.98] and every clause risk score in [0, 10]. -/
abbrev ResultInRange (r : AnalysisResult) : Prop :=
  0 ≤ r.confidence ∧ r.confidence ≤ 0.98 ∧
  ∀ c ∈ r.key_clauses, 0 ≤ c.risk_score ∧ c.risk_score ≤ 10

/-- Every clause produced by optionMapList comes from some list element. -/
theorem optionMapList_mem (f : JVal → Option KeyClause) (l : List JVal)
    (cs : List KeyClause) (hm : optionMapList f l = some cs) (c : KeyClause)
    (hc : c ∈ cs) : ∃ j ∈ l, f j = some c := by
  induction l generalizing cs with
  | nil =>
    simp only [optionMapList, Option.some.injEq] at hm
    subst hm
    simp at hc
  | cons j rest ih =>
    simp only [optionMapList] at hm
    cases hj : f j with
    | none => rw [hj] at hm; simp at hm
    | some c0 =>
      cases hrest : optionMapList f rest with
      | none => rw [hj, hrest] at hm; simp at hm
      | some cs0 =>
        rw [hj, hrest] at hm
        simp only [Option.some.injEq] at hm
        subst hm
        rcases List.mem_cons.mp hc with hceq | hmem
        · exact ⟨j, List.mem_cons_self j rest, hceq ▸ hj⟩
        · obtain ⟨j', hj', hfj'⟩ := ih cs0 hrest hmem
          exact ⟨j', List.mem_cons_of_mem j hj', hfj'⟩

/-- A clause built by the per-clause loop has an in-range risk score when
its source data does. -/
theorem buildKeyClause_risk (lim : Nat) (cc : ℚ) (j : JVal) (c : KeyClause)
    (hb : buildKeyClause lim cc j = some c) (hok : jClauseRiskOK j = true) :
    0 ≤ c.risk_score ∧ c.risk_score ≤ 10 := by
  cases j with
  | obj fields =>
    simp only [buildKeyClause] at hb
    simp only [jClauseRiskOK] at hok
    split at hb
    · rename_i ty ct imp cls risk pg hty hct himp hcls hrisk hpg
      rw [hrisk] at hok
      simp only [Option.some.injEq] at hb
      subst hb
      exact of_decide_eq_true hok
    · exact absurd hb (by simp)
  | null => exact absurd hb (by simp [buildKeyClause])
  | bool b => exact absurd hb (by simp [buildKeyClause])
  | num q => exact absurd hb (by simp [buildKeyClause])
  | str s => exact absurd hb (by simp [buildKeyClause])
  | arr elems => exact absurd hb (by simp [buildKeyClause])

/-- All clauses built from a clause list have in-range risk scores when
the list does. -/
theorem buildKeyClauses_risk (lim : Nat) (cc : ℚ) (elems : List JVal)
    (cs : List KeyClause) (hb : optionMapList (buildKeyClause lim cc) elems = some cs)
    (hok : elems.all jClauseRiskOK = true) :
    ∀ c ∈ cs, 0 ≤ c.risk_score ∧ c.risk_score ≤ 10 := by
  intro c hc
  obtain ⟨j, hj, hfj⟩ := optionMapList_mem _ _ _ hb c hc
  exact buildKeyClause_risk lim cc j c hfj (List.all_eq_true.mp hok j hj)

/-- The primary-path construction caps confidence at 0.98. -/
theorem buildPrimaryResult_cap (docType : String) (data : List (String × JVal))
    (r : AnalysisResult) (hb : buildPrimaryResult docType data = some r) :
    r.confidence ≤ mkRat 98 100 := by
  unfold buildPrimaryResult at hb
  split at hb
  · split at hb
    · simp only [Option.some.injEq] at hb
      subst hb
      exact min_le_right _ _
    · exact absurd hb (by simp)
  · exact absurd hb (by simp)

/-- The primary-path construction is fully in range when the provider data
is. -/
theorem buildPrimaryResult_inrange (docType : String) (data : List (String × JVal))
    (r : AnalysisResult) (hb : buildPrimaryResult docType data = some r)
    (hconf : jConfNonneg (mkRat 8 10) data = true) (hcl : jClausesOK data = true) :
    ResultInRange r := by
  unfold buildPrimaryResult at hb
  split at hb
  · split at hb
    · rename_i clauses summary dt conf hcls hsum hdt hconf'
      simp only [Option.some.injEq] at hb
      subst hb
      refine ⟨?_, le_trans (min_le_right _ _) (by norm_num [Rat.mkRat_eq_div]), ?_⟩
      · unfold jConfNonneg at hconf
        rw [hconf'] at hconf
        exact le_min (of_decide_eq_true hconf) (by decide)
      · intro c hc
        unfold buildKeyClauses at hcls
        split at hcls
        · rename_i elems harr
          unfold jClausesOK at hcl
          rw [harr] at hcl
          exact buildKeyClauses_risk _ _ _ _ hcls hcl c hc
        · exact absurd hcls (by simp)
    · exact absurd hb (by simp)
  · exact absurd hb (by simp)

/-- The fallback construction caps confidence at 0.7 and marks the
summary as a partial analysis. -/
theorem buildFallbackData_shape (docType : String) (data : List (String × JVal))
    (r : AnalysisResult) (hb : buildFallbackData docType data = some r) :
    (∃ s, r.summary = "[Partial Analysis] " ++ s) ∧ r.confidence ≤ 0.7 := by
  unfold buildFallbackData at hb
  split at hb
  · simp only [Option.some.injEq] at hb
    subst hb
    exact ⟨⟨_, rfl⟩, le_trans (min_le_right _ _) (by norm_num [Rat.mkRat_eq_div])⟩
  · exact absurd hb (by simp)

/-- The fallback construction is fully in range when the provider data
is. -/
theorem buildFallbackData_inrange (docType : String) (data : List (String × JVal))
    (r : AnalysisResult) (hb : buildFallbackData docType data = some r)
    (hconf : jConfNonneg (mkRat 6 10) data = true) (hcl : jClausesOK data = true) :
    ResultInRange r := by
  unfold buildFallbackData at hb
  split at hb
  · rename_i clauses conf summary dt hcls hconf' hsum hdt
    simp only [Option.some.injEq] at hb
    subst hb
    refine ⟨?_, le_trans (min_le_right _ _) (by norm_num [Rat.mkRat_eq_div]), ?_⟩
    · unfold jConfNonneg at hconf
      rw [hconf'] at hconf
      exact le_min (of_decide_eq_true hconf) (by decide)
    · intro c hc
      unfold buildKeyClauses at hcls
      split at hcls
      · rename_i elems harr
        unfold jClausesOK at hcl
        rw [harr] at hcl
        exact buildKeyClauses_risk _ _ _ _ hcls hcl c hc
      · exact absurd hcls (by simp)
  · exact absurd hb (by simp)

/-- The terminal fallback result is in range. -/
theorem create_fallback_inrange (d m : String) :
    ResultInRange (create_fallback_result d m) := by
  refine ⟨le_refl 0, by norm_num [create_fallback_result], ?_⟩
  intro c hc
  simp only [create_fallback_result, List.mem_singleton] at hc
  subst hc
  exact ⟨by norm_num, by norm_num⟩

/-- The ultra-fallback result is in range. -/
theorem ultraFallback_inrange (ft d : String) :
    ResultInRange (ultraFallbackResult ft d) := by
  refine ⟨by norm_num [ultraFallbackResult, Rat.mkRat_eq_div],
    by norm_num [ultraFallbackResult, Rat.mkRat_eq_div], ?_⟩
  intro c hc
  simp only [ultraFallbackResult, List.mem_singleton] at hc
  subst hc
  exact ⟨by norm_num, by norm_num⟩

/-- A successful primary attempt means that round trip parsed and the
primary construction succeeded on its data. -/
theorem primaryAttempt_ok_inv (docType : String) (o : AttemptOutcome)
    (r : AnalysisResult) (h : primaryAttempt docType o = Except.ok r) :
    ∃ data, o = AttemptOutcome.parsed data ∧ buildPrimaryResult docType data = some r := by
  cases o with
  | provErr m => exact absurd h (by simp [primaryAttempt])
  | emptyResp => exact absurd h (by simp [primaryAttempt])
  | jsonErr => exact absurd h (by simp [primaryAttempt])
  | parsed data =>
    refine ⟨data, rfl, ?_⟩
    simp only [primaryAttempt] at h
    split at h
    · rename_i r' heq
      simp only [Except.ok.injEq] at h
      rw [← h]
      exact heq
    · exact absurd h (by simp)

/-- The fallback result is one of: the fallback construction on parsed
data, the terminal fallback, or the ultra-fallback on the truncated text. -/
theorem fallback_cases (text docType : String) (fb : AttemptOutcome) :
    (∃ data, fb = AttemptOutcome.parsed data ∧
      buildFallbackData docType data = some (fallback_analysis text docType fb).1) ∨
    (∃ m, (fallback_analysis text docType fb).1 = create_fallback_result docType m) ∨
    ((fallback_analysis text docType fb).1 =
      ultraFallbackResult (pyTake text fallback_chunk_size) docType) := by
  cases fb with
  | provErr m => exact Or.inr (Or.inl ⟨"Fallback failed: " ++ m, rfl⟩)
  | emptyResp => exact Or.inr (Or.inr rfl)
  | jsonErr => exact Or.inr (Or.inr rfl)
  | parsed data =>
    cases hb : buildFallbackData docType data with
    | some r =>
      refine Or.inl ⟨data, rfl, ?_⟩
      simp only [fallback_analysis]
      rw [hb]
    | none =>
      refine Or.inr (Or.inl ⟨"Fallback failed: " ++ buildErrMsg, ?_⟩)
      simp only [fallback_analysis]
      rw [hb]

/-- Every analyze_document result arises from one of the four rungs of the
ladder: primary construction on some attempt's parsed data, fallback
construction on the fallback attempt's parsed data, the terminal fallback,
or the ultra-fallback. -/
theorem analyze_cases (text docType : String) (o1 o2 o3 fb : AttemptOutcome) :
    (∃ data r, (o1 = AttemptOutcome.parsed data ∨ o2 = AttemptOutcome.parsed data ∨
        o3 = AttemptOutcome.parsed data) ∧
      buildPrimaryResult docType data = some r ∧
      (analyze_document text docType o1 o2 o3 fb).1 = r) ∨
    (∃ data r, fb = AttemptOutcome.parsed data ∧
      buildFallbackData docType data = some r ∧
      (analyze_document text docType o1 o2 o3 fb).1 = r) ∨
    (∃ m, (analyze_document text docType o1 o2 o3 fb).1 = create_fallback_result docType m) ∨
    ((analyze_document text docType o1 o2 o3 fb).1 =
      ultraFallbackResult (pyTake text fallback_chunk_size) docType) := by
  unfold analyze_document
  cases h1 : primaryAttempt docType o1 with
  | ok r =>
    obtain ⟨data, ho, hb⟩ := primaryAttempt_ok_inv docType o1 r h1
    exact Or.inl ⟨data, r, Or.inl ho, hb, rfl⟩
  | error f1 =>
    cases h2 : primaryAttempt docType o2 with
    | ok r =>
      obtain ⟨data, ho, hb⟩ := primaryAttempt_ok_inv docType o2 r h2
      exact Or.inl ⟨data, r, Or.inr (Or.inl ho), hb, rfl⟩
    | error f2 =>
      cases h3 : primaryAttempt docType o3 with
      | ok r =>
        obtain ⟨data, ho, hb⟩ := primaryAttempt_ok_inv docType o3 r h3
        exact Or.inl ⟨data, r, Or.inr (Or.inr ho), hb, rfl⟩
      | error f3 =>
        cases f3 with
        | jsonFail =>
          rcases fallback_cases text docType fb with ⟨data, hfb, hb⟩ | ⟨m, heq⟩ | heq
          · exact Or.inr (Or.inl ⟨data, _, hfb, hb, rfl⟩)
          · exact Or.inr (Or.inr (Or.inl ⟨m, heq⟩))
          · exact Or.inr (Or.inr (Or.inr heq))
        | generalFail m =>
          exact Or.inr (Or.inr (Or.inl ⟨m, rfl⟩))

/-- Claim C1 counterexample: a parseable provider response carrying
risk_score 100 and confidence -1 flows through analyze_document unclamped:
the returned clause has risk_score 100 (outside [0, 10]) and the overall
confidence is -1 (below 0). -/
theorem c1_counterexample :
    ((analyze_document "text" "contract"
        (AttemptOutcome.parsed
          [("summary", JVal.str "s"),
           ("key_clauses", JVal.arr [JVal.obj [("risk_score", JVal.num 100)]]),
           ("document_type", JVal.str "d"),
           ("confidence", JVal.num (-1))])
        AttemptOutcome.jsonErr AttemptOutcome.jsonErr AttemptOutcome.jsonErr).1.key_clauses.map
      (fun c => c.risk_score)) = [100] ∧
    ¬((100 : ℚ) ≤ 10) ∧
    (analyze_document "text" "contract"
        (AttemptOutcome.parsed
          [("summary", JVal.str "s"),
           ("key_clauses", JVal.arr [JVal.obj [("risk_score", JVal.num 100)]]),
           ("document_type", JVal.str "d"),
           ("confidence", JVal.num (-1))])
        AttemptOutcome.jsonErr AttemptOutcome.jsonErr AttemptOutcome.jsonErr).1.confidence = -1 ∧
    ¬((0 : ℚ) ≤ -1) := by
  refine ⟨by decide, by norm_num, by decide, by norm_num⟩

/-- Claim C1 (amended): every result of analyze_document has confidence at
most 0.98 on every path; and whenever the parsed provider data of each
round trip carries a nonnegative confidence and clause risk scores inside
[0, 10] after float coercion, the result's confidence lies in [0, 0.98]
and every returned clause's risk_score lies in [0, 10].  The code never
raises a provider-supplied negative confidence to 0 and never clamps
risk_score, so the bounds hold only conditionally. -/
theorem c1_confidence_risk_bounds (text docType : String) (o1 o2 o3 fb : AttemptOutcome) :
    (analyze_document text docType o1 o2 o3 fb).1.confidence ≤ 0.98 ∧
    ((outcomeInRangePrimary o1 && outcomeInRangePrimary o2 && outcomeInRangePrimary o3 &&
        outcomeInRangeFallback fb) = true →
      ResultInRange (analyze_document text docType o1 o2 o3 fb).1) := by
  rcases analyze_cases text docType o1 o2 o3 fb with
    ⟨data, r, hor, hb, heq⟩ | ⟨data, r, hfb, hb, heq⟩ | ⟨m, heq⟩ | heq
  · constructor
    · rw [heq]
      exact le_trans (buildPrimaryResult_cap docType data r hb) (by norm_num [Rat.mkRat_eq_div])
    · intro hrange
      simp only [Bool.and_eq_true] at hrange
      rw [heq]
      have hone : outcomeInRangePrimary (AttemptOutcome.parsed data) = true := by
        rcases hor with ho | ho | ho
        · exact ho ▸ hrange.1.1.1
        · exact ho ▸ hrange.1.1.2
        · exact ho ▸ hrange.1.2
      simp only [outcomeInRangePrimary, outcomeInRange, Bool.and_eq_true] at hone
      exact buildPrimaryResult_inrange docType data r hb hone.1 hone.2
  · constructor
    · rw [heq]
      exact le_trans (buildFallbackData_shape docType data r hb).2 (by norm_num)
    · intro hrange
      simp only [Bool.and_eq_true] at hrange
      rw [heq]
      have hone : outcomeInRangeFallback (AttemptOutcome.parsed data) = true :=
        hfb ▸ hrange.2
      simp only [outcomeInRangeFallback, outcomeInRange, Bool.and_eq_true] at hone
      exact buildFallbackData_inrange docType data r hb hone.1 hone.2
  · rw [heq]
    exact ⟨(create_fallback_inrange docType m).2.1, fun _ => create_fallback_inrange docType m⟩
  · rw [heq]
    exact ⟨(ultraFallback_inrange _ docType).2.1, fun _ => ultraFallback_inrange _ docType⟩

/-- Claim C1 witness: with an in-range parsed primary response the result
is fully in range. -/
theorem c1_confidence_risk_bounds_witness :
    ResultInRange (analyze_document "text" "contract"
      (AttemptOutcome.parsed
        [("summary", JVal.str "s"),
         ("key_clauses", JVal.arr [JVal.obj [("risk_score", JVal.num 7)]]),
         ("document_type", JVal.str "d"),
         ("confidence", JVal.num (mkRat 9 10))])
      AttemptOutcome.jsonErr AttemptOutcome.jsonErr AttemptOutcome.jsonErr).1 := by
  exact (c1_confidence_risk_bounds "text" "contract"
    (AttemptOutcome.parsed
      [("summary", JVal.str "s"),
       ("key_clauses", JVal.arr [JVal.obj [("risk_score", JVal.num 7)]]),
       ("document_type", JVal.str "d"),
       ("confidence", JVal.num (mkRat 9 10))])
    AttemptOutcome.jsonErr AttemptOutcome.jsonErr AttemptOutcome.jsonErr).2 (by decide)

/-- Claim C6 counterexample: after three JSON failures, a fallback
response that parses as JSON but whose confidence value is not numerically
coercible (float raises on a JSON object) does not produce the
partial-analysis result the claim promises for parseable output — the
terminal Error result with confidence 0 is returned instead, with no
partial-analysis marker on the summary. -/
theorem c6_counterexample :
    ((analyze_document "doc text" "contract"
        AttemptOutcome.jsonErr AttemptOutcome.jsonErr AttemptOutcome.jsonErr
        (AttemptOutcome.parsed [("confidence", JVal.obj [])])).1.key_clauses.map
      (fun c => c.type)) = ["Error"] ∧
    ((analyze_document "doc text" "contract"
        AttemptOutcome.jsonErr AttemptOutcome.jsonErr AttemptOutcome.jsonErr
        (AttemptOutcome.parsed [("confidence", JVal.obj [])])).1.summary.data.take 19 ≠
      "[Partial Analysis] ".data) ∧
    (analyze_document "doc text" "contract"
        AttemptOutcome.jsonErr AttemptOutcome.jsonErr AttemptOutcome.jsonErr
        (AttemptOutcome.parsed [("confidence", JVal.obj [])])).1.confidence = 0 := by
  refine ⟨by decide, by decide, by decide⟩

/-- Claim C6 (amended): when every primary attempt fails with a JSON
error, exactly one reduced-scope provider request is issued, over the
first 8000 characters and marked as partial; if that attempt's output
parses as a JSON object and the result construction succeeds (all numeric
coercions included), the returned result is that construction, whose
summary carries the partial-analysis marker and whose confidence is capped
at 0.7; if that output fails to parse (or is empty), the returned result
is the minimal single General Content clause built from the raw truncated
text with confidence 0.5.  When the output parses but a coercion raises,
the terminal fallback is returned instead (see the counterexample). -/
theorem c6_fallback_ladder (text docType : String) (fb : AttemptOutcome) :
    (analyze_document text docType AttemptOutcome.jsonErr AttemptOutcome.jsonErr
        AttemptOutcome.jsonErr fb).2 =
      [{ text := pyTake text 12000, fallbackMode := false },
       { text := pyTake text 12000, fallbackMode := false },
       { text := pyTake text 12000, fallbackMode := false },
       { text := pyTake text fallback_chunk_size, fallbackMode := true }] ∧
    (∀ data r, fb = AttemptOutcome.parsed data →
      buildFallbackData docType data = some r →
      (analyze_document text docType AttemptOutcome.jsonErr AttemptOutcome.jsonErr
          AttemptOutcome.jsonErr fb).1 = r ∧
        (∃ s, r.summary = "[Partial Analysis] " ++ s) ∧ r.confidence ≤ 0.7) ∧
    ((fb = AttemptOutcome.jsonErr ∨ fb = AttemptOutcome.emptyResp) →
      (analyze_document text docType AttemptOutcome.jsonErr AttemptOutcome.jsonErr
          AttemptOutcome.jsonErr fb).1 =
        ultraFallbackResult (pyTake text fallback_chunk_size) docType ∧
      (analyze_document text docType AttemptOutcome.jsonErr AttemptOutcome.jsonErr
          AttemptOutcome.jsonErr fb).1.confidence = 0.5 ∧
      ((analyze_document text docType AttemptOutcome.jsonErr AttemptOutcome.jsonErr
          AttemptOutcome.jsonErr fb).1.key_clauses.map (fun c => c.type)) =
        ["General Content"] ∧
      ((analyze_document text docType AttemptOutcome.jsonErr AttemptOutcome.jsonErr
          AttemptOutcome.jsonErr fb).1.key_clauses.map (fun c => c.content)) =
        [if 200 < (pyTake text fallback_chunk_size).length
         then pyTake (pyTake text fallback_chunk_size) 200 ++ "..."
         else pyTake text fallback_chunk_size]) := by
  refine ⟨?_, ?_, ?_⟩
  · cases fb with
    | provErr m => rfl
    | emptyResp => rfl
    | jsonErr => rfl
    | parsed data =>
      simp only [analyze_document, primaryAttempt, fallback_analysis]
      cases hb : buildFallbackData docType data with
      | some r => rfl
      | none => rfl
  · intro data r hfb hb
    subst hfb
    have hres : (analyze_document text docType AttemptOutcome.jsonErr AttemptOutcome.jsonErr
        AttemptOutcome.jsonErr (AttemptOutcome.parsed data)).1 = r := by
      simp only [analyze_document, primaryAttempt, fallback_analysis]
      rw [hb]
    exact ⟨hres, (buildFallbackData_shape docType data r hb).1,
      (buildFallbackData_shape docType data r hb).2⟩
  · rintro (hfb | hfb) <;> subst hfb <;>
      exact ⟨rfl, by norm_num [analyze_document, primaryAttempt, fallback_analysis,
        ultraFallbackResult, Rat.mkRat_eq_div], rfl, rfl⟩

/-- The partial result returned for an empty parsed fallback object, every
default applied. -/
def c6PartialResult : AnalysisResult :=
  { summary := "[Partial Analysis] Limited analysis completed.",
    key_clauses := [], document_type := "contract", confidence := mkRat 6 10 }

/-- Claim C6 witness: with an empty parsed fallback object every default
applies, and the claimable properties hold of the returned partial
result. -/
theorem c6_fallback_ladder_witness :
    (analyze_document "t" "contract" AttemptOutcome.jsonErr AttemptOutcome.jsonErr
        AttemptOutcome.jsonErr (AttemptOutcome.parsed [])).1 = c6PartialResult ∧
    (∃ s, c6PartialResult.summary = "[Partial Analysis] " ++ s) ∧
    c6PartialResult.confidence ≤ 0.7 := by
  exact (c6_fallback_ladder "t" "contract" (AttemptOutcome.parsed [])).2.1 []
    c6PartialResult rfl (by decide)

/-- Invalid-result record as validate_file builds it on each rejection. -/
def invalidResult (ext : String) (size : Nat) (msg : String) : FileValidationResult :=
  { is_valid := false, file_type := "unknown", file_extension := ext,
    file_size := size, error_message := some msg }

/-- The extension-to-MIME mismatch message of validate_file. -/
def mismatchMsg (ext mime : String) : String :=
  "File extension '" ++ ext ++ "' does not match MIME type '" ++ mime ++ "'"

/-- The invalid-file-type message of validate_file. -/
def invalidTypeMsg (mime : String) : String :=
  "Invalid file type: " ++ mime ++ ". Supported types are: " ++
    String.intercalate ", " allowed_mime_types

/-- Claim C7 (amended): for an upload named x.pdf of 10 bytes whose
content does not sniff as application/pdf, validation always fails and the
returned file_extension is ".pdf" (the splitext extension, leading dot
kept); the error is the extension-to-MIME mismatch message exactly when
the sniffed MIME type is in the allow-list, and the invalid-file-type
message otherwise. -/
theorem c7_pdf_mismatch (mime : String) (hm : mime ≠ "application/pdf") :
    (validate_file "x.pdf" ⟨Except.ok 10, Except.ok mime⟩).is_valid = false ∧
    (validate_file "x.pdf" ⟨Except.ok 10, Except.ok mime⟩).file_extension = ".pdf" ∧
    (allowed_mime_types.contains mime = true →
      (validate_file "x.pdf" ⟨Except.ok 10, Except.ok mime⟩).error_message =
        some (mismatchMsg ".pdf" mime)) ∧
    (allowed_mime_types.contains mime = false →
      (validate_file "x.pdf" ⟨Except.ok 10, Except.ok mime⟩).error_message =
        some (invalidTypeMsg mime)) := by
  have hv : validateInner "x.pdf" ⟨Except.ok 10, Except.ok mime⟩ =
      (if !(allowed_mime_types.contains mime) then
        Except.ok (invalidResult ".pdf" 10 (invalidTypeMsg mime))
      else if ".pdf" = ".pdf" ∧ mime ≠ "application/pdf" then
        Except.ok (invalidResult ".pdf" 10 (mismatchMsg ".pdf" mime))
      else if (".pdf" = ".jpg" ∨ ".pdf" = ".jpeg") ∧ mime ≠ "image/jpeg" then
        Except.ok (invalidResult ".pdf" 10 (mismatchMsg ".pdf" mime))
      else if ".pdf" = ".png" ∧ mime ≠ "image/png" then
        Except.ok (invalidResult ".pdf" 10 (mismatchMsg ".pdf" mime))
      else
        Except.ok
          { is_valid := true,
            file_type := if strContains "pdf".data mime.data then "pdf" else "image",
            file_extension := lstripDot ".pdf",
            file_size := 10 }) := rfl
  by_cases hc : allowed_mime_types.contains mime
  · have hinner : validateInner "x.pdf" ⟨Except.ok 10, Except.ok mime⟩ =
        Except.ok (invalidResult ".pdf" 10 (mismatchMsg ".pdf" mime)) := by
      rw [hv, if_neg (by rw [hc]; decide), if_pos ⟨rfl, hm⟩]
    have hvf : validate_file "x.pdf" ⟨Except.ok 10, Except.ok mime⟩ =
        invalidResult ".pdf" 10 (mismatchMsg ".pdf" mime) := by
      unfold validate_file
      rw [hinner]
    rw [hvf]
    refine ⟨rfl, rfl, fun _ => rfl, fun hfalse => ?_⟩
    rw [hc] at hfalse
    exact absurd hfalse (by decide)
  · have hinner : validateInner "x.pdf" ⟨Except.ok 10, Except.ok mime⟩ =
        Except.ok (invalidResult ".pdf" 10 (invalidTypeMsg mime)) := by
      rw [hv, if_pos (by rw [Bool.not_eq_true] at hc; rw [hc]; decide)]
    have hvf : validate_file "x.pdf" ⟨Except.ok 10, Except.ok mime⟩ =
        invalidResult ".pdf" 10 (invalidTypeMsg mime) := by
      unfold validate_file
      rw [hinner]
    rw [hvf]
    refine ⟨rfl, rfl, fun htrue => ?_, fun _ => rfl⟩
    rw [htrue] at hc
    exact absurd rfl hc

/-- Claim C7 witness: PNG content named x.pdf takes the mismatch branch,
and unlisted content takes the invalid-type branch. -/
theorem c7_pdf_mismatch_witness :
    (validate_file "x.pdf" ⟨Except.ok 10, Except.ok "image/png"⟩).file_extension = ".pdf" ∧
    (validate_file "x.pdf" ⟨Except.ok 10, Except.ok "image/png"⟩).error_message =
      some (mismatchMsg ".pdf" "image/png") ∧
    (validate_file "x.pdf" ⟨Except.ok 10, Except.ok "text/plain"⟩).error_message =
      some (invalidTypeMsg "text/plain") := by
  exact ⟨(c7_pdf_mismatch "image/png" (by decide)).2.1,
    (c7_pdf_mismatch "image/png" (by decide)).2.2.1 (by decide),
    (c7_pdf_mismatch "text/plain" (by decide)).2.2.2 (by decide)⟩

/-- Splitting the character stream at a newline splits the token stream:
the delimiter is whitespace, so no token spans it. -/
theorem pyTokensAux_append_nl (l1 : List Char) (l2 : List Char) (acc : List Char) :
    pyTokensAux (l1 ++ '\n' :: l2) acc =
      pyTokensAux (l1 ++ ['\n']) acc ++ pyTokensAux l2 [] := by
  have hnl : ('\n').isWhitespace = true := by decide
  induction l1 generalizing acc with
  | nil =>
    by_cases hacc : acc.isEmpty <;>
      simp [pyTokensAux, hnl, hacc]
  | cons c l1 ih =>
    by_cases hc : c.isWhitespace
    · by_cases hacc : acc.isEmpty <;>
        simp [pyTokensAux, hc, hacc, ih]
    · simp [pyTokensAux, hc, ih]

/-- A trailing newline adds no token. -/
theorem pyTokensAux_append_nl_nil (l : List Char) (acc : List Char) :
    pyTokensAux (l ++ ['\n']) acc = pyTokensAux l acc := by
  have hnl : ('\n').isWhitespace = true := by decide
  induction l generalizing acc with
  | nil =>
    by_cases hacc : acc.isEmpty <;>
      simp [pyTokensAux, hnl, hacc]
  | cons c l ih =>
    by_cases hc : c.isWhitespace
    · by_cases hacc : acc.isEmpty <;>
        simp [pyTokensAux, hc, hacc, ih]
    · simp [pyTokensAux, hc, ih]

/-- Wrapping a page's text in the page-one delimiter and a trailing
newline adds the delimiter's own four tokens to the word count. -/
theorem pyTokens_page_wrap (s : String) :
    (pyTokens (pageHeader 0 ++ s ++ "\n" ++ "")).length = 4 + (pyTokens s).length := by
  have hd : (pageHeader 0 ++ s ++ "\n" ++ "").data =
      "\n--- Page 1 ---".data ++ '\n' :: (s.data ++ ['\n']) := by
    show ("\n--- Page 1 ---\n".data ++ s.data ++ "\n".data ++ "".data) =
      "\n--- Page 1 ---".data ++ '\n' :: (s.data ++ ['\n'])
    simp
  show (pyTokensAux (pageHeader 0 ++ s ++ "\n" ++ "").data []).length = _
  rw [hd, pyTokensAux_append_nl, List.length_append, pyTokensAux_append_nl_nil,
    pyTokensAux_append_nl_nil]
  have h4 : (pyTokensAux "\n--- Page 1 ---".data []).length = 4 := by decide
  rw [h4]
  rfl

/-- The embedded 200-character text layer of the concrete run below. -/
def c8Emb : String := String.mk (List.replicate 200 'a')

/-- Word count a caller reads off a processing outcome. -/
def wordCountOf : Except String DocumentProcessingResult → Nat
  | .ok r => r.word_count
  | .error _ => 0

set_option maxRecDepth 4000 in
/-- Claim C8 counterexample: a single-page PDF whose embedded layer is 200
characters with no whitespace yields word_count 5, not the 1 whitespace
token of the embedded text — the page delimiter's four tokens are counted
too. -/
theorem c8_counterexample :
    wordCountOf (process_pdf true (Except.ok [PageSpec.ok c8Emb none])) = 5 ∧
    (pyTokens c8Emb).length = 1 ∧
    (5 : Nat) ≠ 1 := by
  refine ⟨by decide, by decide, by decide⟩

/-- Claim C8 (amended): a single-page PDF whose 200-character embedded
layer keeps at least 50 characters after stripping succeeds with
total_pages 1, no processing note (OCR available, none applied), and
word_count equal to the whitespace-token count of the embedded text plus
the 4 tokens of the aggregate's page delimiter. -/
theorem c8_single_page (emb : String) (oc : Option String)
    (res : DocumentProcessingResult)
    (hlen : emb.length = 200) (hstrip : 50 ≤ (pyStripS emb).length)
    (hres : process_pdf true (Except.ok [PageSpec.ok emb oc]) = Except.ok res) :
    res.success = true ∧ res.total_pages = 1 ∧ res.processing_notes = [] ∧
    res.word_count = 4 + (pyTokens emb).length := by
  have hcond : ¬(pyStripS emb = "" ∨ (pyStripS emb).length < ocrMinTextLen) := by
    rintro (h | h)
    · rw [h] at hstrip
      exact absurd hstrip (by decide)
    · rw [ocrMinTextLen] at h
      omega
  have hpage : processPage true 0 emb oc =
      { text := emb, ocrCall := none, ocrApplied := false } := by
    unfold processPage
    rw [if_neg hcond]
  have hpp : process_pdf true (Except.ok [PageSpec.ok emb oc]) =
      Except.ok { success := true,
                  extracted_text := pyStripS (pageHeader 0 ++ emb ++ "\n" ++ ""),
                  total_pages := 1,
                  word_count := (pyTokens (pageHeader 0 ++ emb ++ "\n" ++ "")).length,
                  processing_notes := [] } := by
    simp [process_pdf, processPdfPagesAux, hpage]
  rw [hpp] at hres
  simp only [Except.ok.injEq] at hres
  subst hres
  exact ⟨rfl, rfl, rfl, pyTokens_page_wrap emb⟩

set_option maxRecDepth 4000 in
/-- Claim C8 witness: the concrete 200-character page satisfies the
amended statement with word_count 5 = 4 + 1. -/
theorem c8_single_page_witness :
    wordCountOf (process_pdf true (Except.ok [PageSpec.ok c8Emb none])) =
      4 + (pyTokens c8Emb).length := by
  have h := c8_single_page c8Emb none
    { success := true,
      extracted_text := pyStripS (pageHeader 0 ++ c8Emb ++ "\n" ++ ""),
      total_pages := 1,
      word_count := (pyTokens (pageHeader 0 ++ c8Emb ++ "\n" ++ "")).length,
      processing_notes := [] }
    (by decide) (by decide) rfl
  exact h.2.2.2

end LegalAnalyser
